import Mathlib

/-!
Verification development for the twin voice-assistant core: the wake/session
state machine and inference-gating pipeline.

The shallow embedding below follows the final revision of the sources:
`src/generator.py` (wake detection, relevance gating, response normalization,
risk gate), `src/command.py` (cooldown check and command execution) and
`src/main.py` (the `process_buffer` loop with its wake/sleep state).

External collaborators (the vector-search backend, the fuzzy matcher, the LLM
endpoint, the JSON parser of the standard library, the shell, SSH, room
resolution) are modelled as oracle fields of an `Env` record: the embedding is
parametric in their behaviour.  Wall-clock time is an explicit integer
parameter (whole seconds); risk scores, distances and similarity scores are
rationals.
-/

namespace Twin

/-- JSON values as produced by Python json.loads; numbers are modelled as
rationals. -/
inductive Json where
  | null : Json
  | bool : Bool → Json
  | num  : ℚ → Json
  | str  : String → Json
  | arr  : List Json → Json
  | obj  : List (String × Json) → Json

/-- Lookup of a key in a JSON object (Python dict indexing / `in`). -/
def jsonLookup : List (String × Json) → String → Option Json
  | [], _ => none
  | (k, v) :: rest, key => if k = key then some v else jsonLookup rest key

/-- Python dict.get with a default value. -/
def jsonGetD (kvs : List (String × Json)) (key : String) (d : Json) : Json :=
  (jsonLookup kvs key).getD d

/-- Python truthiness of a JSON value. -/
def jsonTruthy : Json → Bool
  | Json.null => false
  | Json.bool b => b
  | Json.num q => decide (q ≠ 0)
  | Json.str s => decide (s ≠ "")
  | Json.arr xs => !xs.isEmpty
  | Json.obj kvs => !kvs.isEmpty

/-- Values Python would accept in a numeric comparison: numbers, and booleans
(which compare as 0/1).  Any other value raises TypeError, modelled as none. -/
def jsonAsPyNumber : Json → Option ℚ
  | Json.num q => some q
  | Json.bool b => some (if b then 1 else 0)
  | _ => none

/-- Whether a JSON value is an object (Python dict). -/
def Json.isObjB : Json → Bool
  | Json.obj _ => true
  | _ => false

/-- The normalized inference response built by process_result in
src/generator.py.  Every field except commands holds the raw JSON value that
was stored under the corresponding key (the code copies values with dict.get
and performs no type check on them). -/
structure InferenceResponse where
  commands : List Json
  response : Json
  risk : Json
  confirmed : Json
  requires_audio_feedback : Json
  confidence : Json
  intent_reasoning : Json

/-- Extraction of command strings from the value under the new-format
"command" key (src/generator.py lines 71-87): a list keeps dict items with a
"command" key and string items; a bare string becomes a one-element list;
anything else yields no commands. -/
def extractFromCommandVal : Json → List Json
  | Json.arr items =>
      items.filterMap (fun item =>
        match item with
        | Json.obj kvs => jsonLookup kvs "command"
        | Json.str s => some (Json.str s)
        | _ => none)
  | Json.str s => [Json.str s]
  | _ => []

/-- Command extraction of process_result (src/generator.py lines 66-87): a
"commands" key whose value is a list wins; otherwise a "command" key is
interpreted by extractFromCommandVal; otherwise no commands. -/
def extractCommands (kvs : List (String × Json)) : List Json :=
  match jsonLookup kvs "commands" with
  | some (Json.arr xs) => xs
  | _ =>
      match jsonLookup kvs "command" with
      | some c => extractFromCommandVal c
      | none => []

/-- Normalization of a parsed JSON dict (src/generator.py lines 89-99). -/
def processDict (kvs : List (String × Json)) : InferenceResponse :=
  { commands := extractCommands kvs
  , response := jsonGetD kvs "response" (Json.str "")
  , risk := jsonGetD kvs "risk" (Json.num (mkRat 1 2))
  , confirmed := jsonGetD kvs "confirmed" (Json.bool false)
  , requires_audio_feedback := jsonGetD kvs "requires_audio_feedback" (Json.bool false)
  , confidence := jsonGetD kvs "confidence" (Json.num (mkRat 1 2))
  , intent_reasoning := jsonGetD kvs "intent_reasoning" (Json.str "") }

/-- process_result from src/generator.py.  The function receives the cleaned
raw LLM output string; parsed stands for the result of Python json.loads on
it, with none denoting JSONDecodeError.  On parse failure the raw text is
wrapped as a single echo command (lines 38-48); a parsed non-dict value yields
the empty-commands fallback (lines 50-61); a dict is normalized field by
field. -/
def process_result (raw : String) (parsed : Option Json) : InferenceResponse :=
  match parsed with
  | none =>
      { commands := [Json.str ("echo " ++ raw)]
      , response := Json.str raw
      , risk := Json.num (mkRat 1 2)
      , confirmed := Json.bool false
      , requires_audio_feedback := Json.bool false
      , confidence := Json.num (mkRat 1 2)
      , intent_reasoning := Json.str "" }
  | some (Json.obj kvs) => processDict kvs
  | some _ =>
      { commands := []
      , response := Json.str ""
      , risk := Json.num (mkRat 1 2)
      , confirmed := Json.bool false
      , requires_audio_feedback := Json.bool false
      , confidence := Json.num (mkRat 1 2)
      , intent_reasoning := Json.str "" }

/-- Encoding of a normalized response back into the JSON object shape that
process_result itself emits (the dict literal of src/generator.py lines
91-99). -/
def respToJson (r : InferenceResponse) : Json :=
  Json.obj
    [ ("commands", Json.arr r.commands)
    , ("response", r.response)
    , ("risk", r.risk)
    , ("confirmed", r.confirmed)
    , ("requires_audio_feedback", r.requires_audio_feedback)
    , ("confidence", r.confidence)
    , ("intent_reasoning", r.intent_reasoning) ]

/-- Python str.strip with no argument: whitespace dropped from both ends. -/
def pyStrip (s : String) : String :=
  ⟨((s.data.dropWhile Char.isWhitespace).reverse.dropWhile Char.isWhitespace).reverse⟩

/-- Characters of a string dropped from both ends while they belong to a
character set: Python str.strip with a chars argument. -/
def stripCharSet (cs : List Char) (s : String) : String :=
  ⟨((s.data.dropWhile (cs.contains ·)).reverse.dropWhile (cs.contains ·)).reverse⟩

/-- clean_gpt_response from src/generator.py: a response fenced by a json
code block is stripped of the fence characters.  Python str.strip with a
chars argument strips any character of the set from both ends. -/
def clean_gpt_response (raw : String) : String :=
  if raw.startsWith "```json" && raw.endsWith "```" then
    pyStrip (stripCharSet ['`'] (stripCharSet ['`', 'j', 's', 'o', 'n'] raw))
  else raw

theorem respToJson_roundtrip (raw : String) (r : InferenceResponse) :
    process_result raw (some (respToJson r)) = r := by
  cases r
  rfl

/-- Whether a character list starts with a pattern. -/
def listStartsWith : List Char → List Char → Bool
  | _, [] => true
  | [], _ => false
  | c :: cs, p :: ps => c == p && listStartsWith cs ps

/-- Whether a pattern occurs anywhere in a character list. -/
def listHasInfix : List Char → List Char → Bool
  | [], pat => listStartsWith [] pat
  | c :: cs, pat => listStartsWith (c :: cs) pat || listHasInfix cs pat

/-- Python substring containment, the in operator on strings. -/
def strContains (s pat : String) : Bool := listHasInfix s.data pat.data

/-- Characters consumed up to and including the first closing angle bracket,
or none when no closing bracket exists. -/
def dropThroughGt : List Char → Option (List Char)
  | [] => none
  | c :: rest => if c = '>' then some rest else dropThroughGt rest

theorem dropThroughGt_length : ∀ {l l2 : List Char}, dropThroughGt l = some l2 →
    l2.length < l.length := by
  intro l
  induction l with
  | nil => intro l2 h; simp [dropThroughGt] at h
  | cons c rest ih =>
      intro l2 h
      simp only [dropThroughGt] at h
      split at h
      · cases h; simp
      · exact Nat.lt_trans (ih h) (Nat.lt_succ_self _)

/-- Semantics of re.sub on the pattern of an opening angle bracket, a run of
characters other than a closing bracket, and a closing bracket, with the
replacement text office (src/command.py line 167): each bracketed placeholder
is replaced by office; an opening bracket with no closing bracket after it
matches nothing and the remainder is kept verbatim. -/
def sanitizeAngles : List Char → List Char
  | [] => []
  | c :: rest =>
      if c = '<' then
        match h : dropThroughGt rest with
        | some rest2 => "office".data ++ sanitizeAngles rest2
        | none => c :: rest
      else c :: sanitizeAngles rest
termination_by l => l.length
decreasing_by
  · exact Nat.lt_trans (dropThroughGt_length h) (Nat.lt_succ_self _)
  · exact Nat.lt_succ_self _

/-- Cooldown registry last_executed_commands of src/command.py: exact command
string mapped to the timestamp of its last execution. -/
abbrev Registry := List (String × Int)

/-- Registry lookup by exact command string. -/
def regLookup : Registry → String → Option Int
  | [], _ => none
  | (k, v) :: rest, key => if k = key then some v else regLookup rest key

/-- is_in_cooldown from src/command.py lines 35-43: a command is in cooldown
when the registry holds a timestamp for the exact command string and less
than cooldown_period seconds have elapsed since it.  The final revision of
src/command.py never inserts into last_executed_commands, so in every run of
this code the registry stays empty. -/
def is_in_cooldown (reg : Registry) (now : Int) (command_str : String)
    (cooldown_period : Int) : Bool :=
  match regLookup reg command_str with
  | some last_time => decide (now - last_time < cooldown_period)
  | none => false

/-- Room-resolution collaborator (context key ROOM_MANAGER).  main.py builds
the context dict without this key, so the pipeline below passes none. -/
structure RoomOracle where
  resolveFromTranscript : String → Option String
  validateRoomCommand : String → String → Bool × String

/-- External collaborators and environment facts, treated as oracles: the
vector-search backend, the rapidfuzz token-set scorer, the LLM endpoint
(keyed by source text, candidate commands and tool info, the inputs of the
prompt), the json.loads parser, the persona self file, Python str rendering
of non-string values, the shell, and the SSH/display configuration. -/
structure Env where
  search : String → String → List (String × ℚ)
  fuzz : String → String → ℚ
  llm : String → List String → String → Option String
  parse : String → Option Json
  selfText : String
  pyStr : Json → String
  runShell : String → Int × String × String
  sshTarget : Option String
  display : String

/-- The slice of the context dict read by execute_single_command. -/
structure CmdCtx where
  risk_threshold : ℚ
  cooldown_period : Int
  session_open : Bool
  after_transcriptions : List String
  room_manager : Option RoomOracle
  detected_location : Option String

/-- Session record appended for an executed command, src/command.py lines
239-247. -/
structure CmdRecord where
  timestamp : Int
  command : String
  output : String
  success : Bool
  error : String
  exit_code : Int

/-- Priority-3 room resolution from the persona text (src/command.py lines
136-146): keyword search in the lowercased self text. -/
def selfTextRoom (self_text : String) : Option String :=
  if self_text = "" then none
  else
    let lt := self_text.toLower
    if strContains lt "office" then some "office"
    else if strContains lt "kitchen" then some "kitchen"
    else if strContains lt "bedroom" then some "bedroom"
    else if strContains lt "media" then some "media"
    else none

/-- Empty strings are falsy in Python, so an empty resolution result does not
assign the room. -/
def nonEmptyOpt (o : Option String) : Option String :=
  o.bind (fun x => if x = "" then none else some x)

/-- Room resolution priority chain of src/command.py lines 115-151: transcript
resolution when a session is open and a room manager exists, then the
detected location, then persona keywords, then the office default. -/
def resolveRoom (cc : CmdCtx) (self_text : String) : String :=
  let p1 :=
    match cc.room_manager, cc.session_open, cc.after_transcriptions.getLast? with
    | some rm, true, some lastT => nonEmptyOpt (rm.resolveFromTranscript lastT)
    | _, _, _ => none
  let p2 := p1 <|> nonEmptyOpt cc.detected_location
  let p3 := p2 <|> selfTextRoom self_text
  p3.getD "office"

/-- Observable outcome of a single command execution: subprocess invocations,
the session record appended if a session is open, and the returned triple. -/
structure SingleOut where
  spawned : List String
  record : Option CmdRecord
  ret : Bool × String × String

/-- Body of execute_single_command once a command string is in hand
(src/command.py lines 113-249): room-placeholder resolution and validation,
angle-bracket sanitization, cooldown check, optional SSH wrapping, the
subprocess call, and the session record. -/
def execSingleStr (E : Env) (cc : CmdCtx) (reg : Registry) (command_str : String)
    (cooldown_period : Int) (self_text : String) (now : Int) : SingleOut :=
  let roomHit := (strContains command_str "lights" || strContains command_str "thermostat")
                   && strContains command_str "<room_name>"
  let room := resolveRoom cc self_text
  let validated : Option String :=
    if roomHit then
      match cc.room_manager with
      | some rm =>
          if (rm.validateRoomCommand command_str room).1 then
            some (command_str.replace "<room_name>" room)
          else none
      | none => some (command_str.replace "<room_name>" room)
    else some command_str
  match validated with
  | none =>
      let msg := match cc.room_manager with
                 | some rm => (rm.validateRoomCommand command_str room).2
                 | none => ""
      ⟨[], none, (false, "", msg)⟩
  | some s1 =>
      let s2 := if strContains s1 "<" || strContains s1 ">" then
                  String.mk (sanitizeAngles s1.data)
                else s1
      if is_in_cooldown reg now s2 cooldown_period then
        ⟨[], none, (false, "", "Command in cooldown")⟩
      else
        let final :=
          match E.sshTarget with
          | some tgt => "ssh -o StrictHostKeyChecking=no " ++ tgt ++ " 'export DISPLAY="
                          ++ E.display ++ "; " ++ s2 ++ "'"
          | none => s2
        let res := E.runShell final
        let success := res.1 == 0
        let out := pyStrip res.2.1
        let err := pyStrip res.2.2
        ⟨[final], if cc.session_open then some ⟨now, s2, out, success, err, res.1⟩ else none,
          (success, out, err)⟩

/-- execute_single_command from src/command.py lines 94-262: extraction of the
command string from a dict (cli key, else command key) or from a bare value,
then execSingleStr.  A truthy dict value that is not a string raises
TypeError at the first substring check; the except block records the failure
when a session is open.  Python str rendering of a non-string bare value is
taken from the environment. -/
def execute_single_command (E : Env) (cc : CmdCtx) (reg : Registry) (command : Json)
    (cooldown_period : Int) (self_text : String) (now : Int) : SingleOut :=
  match command with
  | Json.obj kvs =>
      let v1 := (jsonLookup kvs "cli").getD Json.null
      let val := if jsonTruthy v1 then v1 else (jsonLookup kvs "command").getD (Json.str "")
      if !jsonTruthy val then
        ⟨[], none, (false, "", "Missing 'cli' or 'command' key in command dictionary")⟩
      else
        match val with
        | Json.str s => execSingleStr E cc reg s cooldown_period self_text now
        | other =>
            ⟨[], if cc.session_open then some ⟨now, E.pyStr other, "", false, "TypeError", -1⟩
                 else none,
              (false, "", "TypeError")⟩
  | Json.str s =>
      let command_str := pyStrip s
      if command_str = "" then ⟨[], none, (false, "", "Empty command")⟩
      else execSingleStr E cc reg command_str cooldown_period self_text now
  | other =>
      let command_str := pyStrip (E.pyStr other)
      if command_str = "" then ⟨[], none, (false, "", "Empty command")⟩
      else execSingleStr E cc reg command_str cooldown_period self_text now

/-- Observable outcome of an execute_commands batch. -/
structure BatchOut where
  spawned : List String
  records : List CmdRecord

/-- Per-command loop of execute_commands, src/command.py lines 83-85.  The
registry is a module-level dict that this revision never mutates, so every
iteration reads the same registry. -/
def execBatch (E : Env) (cc : CmdCtx) (reg : Registry) (commands : List Json)
    (cooldown_period : Int) (self_text : String) (now : Int) : BatchOut :=
  commands.foldl
    (fun acc cmd =>
      let o := execute_single_command E cc reg cmd cooldown_period self_text now
      ⟨acc.spawned ++ o.spawned, acc.records ++ o.record.toList⟩)
    ⟨[], []⟩

/-- execute_commands of src/command.py lines 45-92 entered through the old
calling convention execute_commands(commands, cooldown_period, context): the
second argument is an int or None, so the dispatch takes cooldown_period from
it, rebinds context to the third positional argument, and resets
requires_confirmation to False and risk_level to 0.0; the risk check then
skips execution only when 0.0 exceeds the configured threshold. -/
def execute_commands_old (E : Env) (cc : CmdCtx) (reg : Registry) (commands : List Json)
    (cooldown_arg : Option Int) (now : Int) : BatchOut :=
  let cooldown : Int := cooldown_arg.getD 0
  if commands.isEmpty then ⟨[], []⟩
  else if decide ((0 : ℚ) > cc.risk_threshold) then ⟨[], []⟩
  else execBatch E cc reg commands cooldown "" now

/-- execute_commands entered through the new calling convention
execute_commands(commands, context, requires_confirmation, risk_level,
self_text): cooldown_period is read from the context and the whole batch is
skipped when risk_level exceeds the threshold without confirmation.  A
non-numeric risk_level raises TypeError inside the comparison, which the
outer except catches after executing nothing. -/
def execute_commands_new (E : Env) (cc : CmdCtx) (reg : Registry) (commands : List Json)
    (requires_confirmation risk_level : Json) (self_text : String) (now : Int) : BatchOut :=
  if commands.isEmpty then ⟨[], []⟩
  else
    match jsonAsPyNumber risk_level with
    | none => ⟨[], []⟩
    | some q =>
        if decide (q > cc.risk_threshold) && !jsonTruthy requires_confirmation then ⟨[], []⟩
        else execBatch E cc reg commands cc.cooldown_period self_text now

/-- Configured wake phrases, src/generator.py line 20. -/
def WAKE_PHRASES : List String := ["Hey computer.", "Hey twin"]

/-- Accumulating splitter over whitespace: the accumulator holds the current
word reversed. -/
def splitWsAux : List Char → List Char → List String
  | [], acc => if acc.isEmpty then [] else [String.mk acc.reverse]
  | c :: cs, acc =>
      if c.isWhitespace then
        if acc.isEmpty then splitWsAux cs []
        else String.mk acc.reverse :: splitWsAux cs []
      else splitWsAux cs (c :: acc)

/-- Python str.split with no argument: split on whitespace runs, dropping
empty fragments. -/
def pyWords (s : String) : List String :=
  splitWsAux s.data []

/-- Sliding windows of the wake loop (src/generator.py lines 190-194): the
window size is the smaller of the word count and 2, and the window at index i
joins that many words starting at i.  An empty utterance yields one empty
window, as in the source. -/
def windows (words : List String) : List String :=
  let w := min words.length 2
  (List.range (words.length - w + 1)).map
    (fun i => String.intercalate " " ((words.drop i).take w))

/-- Wake distance threshold hard-coded in process_user_text, line 177. -/
def WAKE_DISTANCE_THRESHOLD : ℚ := mkRat 3 10

/-- Fuzzy similarity threshold hard-coded in process_user_text, line 178. -/
def FUZZY_SIMILARITY_THRESHOLD : ℚ := 60

/-- One iteration of the wake loop, src/generator.py lines 195-204: the
window wakes when the wake collection has a result below the distance
threshold and some configured phrase has fuzzy similarity at or above the
similarity threshold. -/
def wakeHit (E : Env) (window : String) : Bool :=
  let relevant_wake := (E.search window "wake").filter
    (fun r => decide (r.2 < WAKE_DISTANCE_THRESHOLD))
  let fuzzy_matches := WAKE_PHRASES.filter
    (fun phrase => decide (E.fuzz window phrase ≥ FUZZY_SIMILARITY_THRESHOLD))
  !relevant_wake.isEmpty && !fuzzy_matches.isEmpty

/-- Configuration values threaded through the context dict and args: risk
threshold, cooldown period (an int in config), collection distance
thresholds, wake timeout, the two history sizes, and the execute flag. -/
structure Config where
  risk_threshold : ℚ
  cooldown_period : Int
  amy_threshold : ℚ
  na_threshold : ℚ
  hip_threshold : ℚ
  wake_timeout : Int
  history_buffer_size : Nat
  history_include_chunks : Nat
  execute : Bool

/-- Vectorstore audit record appended per active utterance, src/generator.py
lines 228-235. -/
structure VecRecord where
  timestamp : Int
  transcription : String
  amygdala_results : List (String × ℚ)
  accumbens_results : List (String × ℚ)
  hippocampus_results : List (String × ℚ)
  tools_results : List (String × ℚ)

/-- Entries of the heterogeneous session list commands_executed: single
command records appended inside src/command.py, and batch entries appended by
src/main.py lines 369-374. -/
inductive CmdEntry where
  | single : CmdRecord → CmdEntry
  | batch : List Json → String → Int → CmdEntry

/-- Entries of the session list inferences: one appended by src/generator.py
lines 282-288 and another by src/main.py lines 350-356 for the same
inference. -/
inductive InfEntry where
  | gen : Int → String → InferenceResponse → InfEntry
  | buf : Int → String → InferenceResponse → InfEntry

/-- Session record created at wake, src/main.py lines 326-337. -/
structure Session where
  start_time : Int
  before_transcriptions : List String
  after_transcriptions : List String
  inferences : List InfEntry
  commands_executed : List CmdEntry
  vectorstore_results : List VecRecord

/-- Tool information collection, src/generator.py lines 246-258: each
relevant tool command is executed through run_command_and_capture and its
stripped output, or error, is reported; with no relevant tools a fixed
message is used.  The second component lists the tool commands run. -/
def toolInfoOf (E : Env) (relevant_tools : List (String × ℚ)) : String × List String :=
  if relevant_tools.isEmpty then ("No relevant tool information.", [])
  else
    let lines := relevant_tools.map (fun p =>
      let res := E.runShell p.1
      if res.1 == 0 then p.1 ++ ": " ++ pyStrip res.2.1
      else p.1 ++ ": (error: " ++ pyStrip res.2.2 ++ ")")
    (String.intercalate "\n" lines, relevant_tools.map (fun p => p.1))

/-- run_inference from src/generator.py lines 101-159: prompt construction
and the model call are the llm oracle, keyed by the prompt inputs (source
text, candidate commands, tool info); a None or empty model result, or an
exception, yields none; otherwise the raw output is cleaned and normalized by
process_result under the json.loads oracle. -/
def run_inference (E : Env) (source_text : String) (accumbens_commands : List String)
    (tool_info : String) : Option InferenceResponse :=
  match E.llm source_text accumbens_commands tool_info with
  | none => none
  | some raw =>
      let cleaned := clean_gpt_response raw
      some (process_result cleaned (E.parse cleaned))

/-- Below-threshold filtering of search results, src/generator.py lines
237-239. -/
def relevantBelow (results : List (String × ℚ)) (threshold : ℚ) : List (String × ℚ) :=
  results.filter (fun r => decide (r.2 < threshold))

/-- Relevance gate of process_user_text (src/generator.py line 242):
inference proceeds only when both the amygdala and the na collection have a
result below their thresholds. -/
def relevanceGate (E : Env) (C : Config) (text : String) : Bool :=
  !(relevantBelow (E.search text "amygdala") C.amy_threshold).isEmpty
    && !(relevantBelow (E.search text "na") C.na_threshold).isEmpty

/-- The inference attempt made by process_user_text when the relevance gate
passes (src/generator.py lines 260-269): candidate commands are all accumbens
snippets, relevant or not, and tool info comes from the relevant tools. -/
def inferenceAttempt (E : Env) (C : Config) (text : String) : Option InferenceResponse :=
  run_inference E text ((E.search text "na").map (fun p => p.1))
    (toolInfoOf E (relevantBelow (E.search text "tools") C.na_threshold)).1

/-- The risk gate expression of src/generator.py line 295: risk at most the
threshold, or a truthy confirmed value.  A non-numeric risk raises TypeError,
modelled as none, which propagates out of process_user_text. -/
def riskGatePy (risk confirmed : Json) (threshold : ℚ) : Option Bool :=
  match jsonAsPyNumber risk with
  | some q => some (decide (q ≤ threshold) || jsonTruthy confirmed)
  | none => none

/-- Observable outcome of one process_user_text call: the response dict
fields, whether the risk-gate comparison raised, whether run_inference was
invoked, the batch handed to execute_commands with that call's outcome, the
session appends, and the tool commands run. -/
structure GenOut where
  woke_up : Bool
  inference_response : Option InferenceResponse
  raised : Bool
  inferCalled : Bool
  batchesHanded : List (List Json)
  genBatch : BatchOut
  infRecord : Option InfEntry
  vecRecord : Option VecRecord
  toolCalls : List String

/-- The all-empty generator outcome, matching the response dict initialised
at src/generator.py lines 180-184. -/
def GenOut.empty : GenOut :=
  ⟨false, none, false, false, [], ⟨[], []⟩, none, none, []⟩

/-- The slice of the context dict seen by execute_single_command when called
from this pipeline: main.py builds the context without ROOM_MANAGER or
DETECTED_LOCATION keys, so both resolve to none. -/
def ccOf (C : Config) (session : Option Session) : CmdCtx :=
  { risk_threshold := C.risk_threshold
  , cooldown_period := C.cooldown_period
  , session_open := session.isSome
  , after_transcriptions := (session.map Session.after_transcriptions).getD []
  , room_manager := none
  , detected_location := none }

/-- process_user_text from src/generator.py lines 161-318.  In the dormant
unforced case only wake detection runs and the function returns right after
it, so a waking call reports woke_up with no inference.  In the active or
forced case the four collections are searched, the audit record is appended
when a session is open, the relevance gate decides whether to run inference,
and a produced response is recorded and, when execution is enabled,
risk-gated and handed to execute_commands through the old calling
convention. -/
def process_user_text (E : Env) (C : Config) (session : Option Session) (reg : Registry)
    (text : String) (is_awake force_awake : Bool) (now : Int) : GenOut :=
  if !is_awake && !force_awake then
    if (windows (pyWords text)).any (wakeHit E) then
      { GenOut.empty with woke_up := true }
    else GenOut.empty
  else
    let amy := E.search text "amygdala"
    let na := E.search text "na"
    let hip := E.search text "hippocampus"
    let tools := E.search text "tools"
    let vec : Option VecRecord :=
      if session.isSome then some ⟨now, text, amy, na, hip, tools⟩ else none
    if !relevanceGate E C text then
      { GenOut.empty with vecRecord := vec }
    else
      let toolPair := toolInfoOf E (relevantBelow tools C.na_threshold)
      match inferenceAttempt E C text with
      | none =>
          { GenOut.empty with
              vecRecord := vec
              inferCalled := true
              toolCalls := toolPair.2 }
      | some r =>
          let infRec : Option InfEntry :=
            if session.isSome then some (InfEntry.gen now text r) else none
          if C.execute then
            match riskGatePy r.risk r.confirmed C.risk_threshold with
            | none =>
                { woke_up := false, inference_response := none, raised := true,
                  inferCalled := true, batchesHanded := [], genBatch := ⟨[], []⟩,
                  infRecord := infRec, vecRecord := vec, toolCalls := toolPair.2 }
            | some true =>
                let cc := ccOf C session
                let b := execute_commands_old E cc reg r.commands (some C.cooldown_period) now
                { woke_up := false, inference_response := some r, raised := false,
                  inferCalled := true, batchesHanded := [r.commands], genBatch := b,
                  infRecord := infRec, vecRecord := vec, toolCalls := toolPair.2 }
            | some false =>
                { woke_up := false, inference_response := some r, raised := false,
                  inferCalled := true, batchesHanded := [], genBatch := ⟨[], []⟩,
                  infRecord := infRec, vecRecord := vec, toolCalls := toolPair.2 }
          else
            { woke_up := false, inference_response := some r, raised := false,
              inferCalled := true, batchesHanded := [], genBatch := ⟨[], []⟩,
              infRecord := infRec, vecRecord := vec, toolCalls := toolPair.2 }

/-- Bounded deque append: a deque with maxlen drops its oldest entries. -/
def dequeAppend (maxlen : Nat) (xs : List String) (x : String) : List String :=
  let ys := xs ++ [x]
  ys.drop (ys.length - maxlen)

/-- The last n entries of a list, Python negative-index slicing. -/
def lastChunks (n : Nat) (xs : List String) : List String :=
  xs.drop (xs.length - n)

/-- The module-level state of src/main.py together with the shared session
and cooldown registry: the awake flag, the wake timer, the inference flag,
the two transcript deques (recent capped at 10, history capped at the
configured size), the open session, and last_executed_commands. -/
structure SysState where
  is_awake : Bool
  wake_start_time : Option Int
  did_inference : Bool
  recent_transcriptions : List String
  history_buffer : List String
  session_data : Option Session
  registry : Registry

/-- Initial state at process start: dormant, no timer, empty buffers, no
session, empty registry. -/
def initState : SysState :=
  ⟨false, none, false, [], [], none, []⟩

/-- Session mutations performed inside process_user_text and its
execute_commands call, applied to the state: the vectorstore audit record,
the generator inference record, and the per-command records. -/
def applyGenEffects (st : SysState) (g : GenOut) : SysState :=
  match st.session_data with
  | none => st
  | some s =>
      let s2 : Session :=
        { s with
            vectorstore_results := s.vectorstore_results ++ g.vecRecord.toList
            inferences := s.inferences ++ g.infRecord.toList
            commands_executed := s.commands_executed
              ++ g.genBatch.records.map CmdEntry.single }
      { st with session_data := some s2 }

/-- Session dict created at wake, src/main.py lines 326-337: the pre-wake
snapshot is the recent transcription deque at that moment. -/
def newSession (now : Int) (recent : List String) : Session :=
  ⟨now, recent, [], [], [], []⟩

/-- Observable trace of one iteration of the utterance loop: whether the
generator risk gate raised, the inference response, the two execution
outcomes, and the batches handed to execute_commands. -/
structure StepTrace where
  crashed : Bool
  infResp : Option InferenceResponse
  genBatch : BatchOut
  bufBatch : BatchOut
  execCalls : List (List Json)

/-- One iteration of the transcription loop of process_buffer, src/main.py
lines 288-381: the utterance joins the session transcript and history buffer
when awake (the recent deque otherwise), the text to process is built,
process_user_text runs, and then either the system wakes (creating the
session, snapshotting and clearing the recent deque, skipping the rest), or,
while awake, a produced inference is recorded and its commands are executed
immediately through the new calling convention of execute_commands, and the
wake timer is reset to now whether or not an inference occurred.  A TypeError
from the generator risk gate crashes the loop. -/
def utteranceStep (E : Env) (C : Config) (st : SysState) (text : String) (now : Int) :
    SysState × StepTrace :=
  let st1 :=
    if st.is_awake && st.session_data.isSome then
      { st with
          session_data := st.session_data.map (fun s =>
            { s with after_transcriptions := s.after_transcriptions ++ [text] })
          history_buffer := dequeAppend C.history_buffer_size st.history_buffer text }
    else { st with recent_transcriptions := dequeAppend 10 st.recent_transcriptions text }
  let hist_text := String.intercalate " " (lastChunks C.history_include_chunks st1.history_buffer)
  let combined_text := if st.is_awake then pyStrip (hist_text ++ " " ++ text) else text
  let text_to_process := if st.is_awake then text else combined_text
  let g := process_user_text E C st1.session_data st1.registry text_to_process st.is_awake false now
  let st2 := applyGenEffects st1 g
  if g.raised then
    (st2, ⟨true, none, g.genBatch, ⟨[], []⟩, g.batchesHanded⟩)
  else if g.woke_up && !st.is_awake then
    ({ st2 with
        is_awake := true
        wake_start_time := some now
        session_data := some (newSession now st2.recent_transcriptions)
        recent_transcriptions := [] },
     ⟨false, g.inference_response, g.genBatch, ⟨[], []⟩, g.batchesHanded⟩)
  else if st.is_awake then
    match g.inference_response with
    | some r =>
        let st3 : SysState := { st2 with did_inference := true }
        let st4 : SysState := { st3 with session_data := st3.session_data.map (fun s =>
            { s with inferences := s.inferences ++ [InfEntry.buf now text_to_process r] }) }
        if !r.commands.isEmpty && C.execute then
          let cc := ccOf C st4.session_data
          let b := execute_commands_new E cc st4.registry r.commands r.confirmed r.risk "" now
          let st5 : SysState := { st4 with session_data := st4.session_data.map (fun s =>
              { s with commands_executed := s.commands_executed
                  ++ b.records.map CmdEntry.single
                  ++ [CmdEntry.batch r.commands text_to_process now] }) }
          ({ st5 with wake_start_time := some now },
           ⟨false, some r, g.genBatch, b, g.batchesHanded ++ [r.commands]⟩)
        else
          ({ st4 with wake_start_time := some now },
           ⟨false, some r, g.genBatch, ⟨[], []⟩, g.batchesHanded⟩)
    | none =>
        ({ st2 with wake_start_time := some now },
         ⟨false, none, g.genBatch, ⟨[], []⟩, g.batchesHanded⟩)
  else (st2, ⟨false, g.inference_response, g.genBatch, ⟨[], []⟩, g.batchesHanded⟩)

/-- Finalized session fields stamped at sleep, src/main.py lines 388-393. -/
structure FinalSession where
  start_time : Int
  end_time : Int
  duration : Int
  complete_transcription : String
  before_transcriptions : List String
  after_transcriptions : List String
  inferences : List InfEntry
  commands_executed : List CmdEntry

/-- Python truthiness of the wake timer float: None and 0.0 are falsy. -/
def wstTruthy : Option Int → Bool
  | none => false
  | some t => decide (t ≠ 0)

/-- Sleep check at the end of process_buffer, src/main.py lines 383-396: when
awake with a truthy timer and more than wake_timeout seconds elapsed since
the last timer reset, the session is stamped with its end time, a duration
measured from the last timer reset, and the full history buffer joined as the
complete transcription, then handed to the reporter and cleared; the awake
and inference flags reset but wake_start_time keeps its value. -/
def sleepCheck (C : Config) (st : SysState) (now : Int) : SysState × Option FinalSession :=
  if st.is_awake && wstTruthy st.wake_start_time
      && decide (now - (st.wake_start_time.getD 0) > C.wake_timeout) then
    match st.session_data with
    | some s =>
        ({ st with is_awake := false, did_inference := false, session_data := none },
         some ⟨s.start_time, now, now - (st.wake_start_time.getD 0),
               String.intercalate " " st.history_buffer,
               s.before_transcriptions, s.after_transcriptions, s.inferences,
               s.commands_executed⟩)
    | none =>
        ({ st with is_awake := false, did_inference := false }, none)
  else (st, none)

/-- Input events of the processing loop: a queued external command, or one
audio cycle delivering the accepted transcriptions with their processing
times and ending with the sleep check. -/
inductive Event where
  | external : String → Int → Event
  | audio : List (String × Int) → Int → Event

/-- Observable outcome of one process_buffer call. -/
structure CycleOut where
  crashed : Bool
  steps : List StepTrace
  finalized : Option FinalSession

/-- External-command branch of process_buffer, src/main.py lines 221-247: the
queued text is processed with is_awake and force_awake both true; a woke_up
result would create a session (unreachable, since process_user_text cannot
report waking when called awake); a produced inference sets did_inference and
resets the timer only when the response carries commands and execution is
enabled; the branch returns before the sleep check. -/
def externalCycle (E : Env) (C : Config) (st : SysState) (text : String) (now : Int) :
    SysState × CycleOut :=
  let g := process_user_text E C st.session_data st.registry text true true now
  let st2 := applyGenEffects st g
  if g.raised then (st2, ⟨true, [], none⟩)
  else
    let st3 :=
      if g.woke_up then
        { st2 with
            is_awake := true
            wake_start_time := some now
            session_data := some ⟨now, [], [], [], [], []⟩ }
      else st2
    let st4 :=
      match g.inference_response with
      | some r =>
          let stI := { st3 with did_inference := true }
          if !r.commands.isEmpty && C.execute then { stI with wake_start_time := some now }
          else stI
      | none => st3
    (st4, ⟨false, [], none⟩)

/-- One iteration of the for loop over transcriptions, threading the state,
the collected traces, and the crash flag: after a crash the remaining
utterances are not processed. -/
def loopStep (E : Env) (C : Config) (acc : SysState × List StepTrace × Bool)
    (p : String × Int) : SysState × List StepTrace × Bool :=
  if acc.2.2 then acc
  else
    let r := utteranceStep E C acc.1 p.1 p.2
    (r.1, acc.2.1 ++ [r.2], r.2.crashed)

/-- Audio branch of process_buffer: transcribe_audio appends every accepted
transcription to the recent and history deques before the loop runs
(src/transcribe.py lines 102-110 with the buffers passed at src/main.py lines
274-285), then each utterance is processed in order, stopping on a crash, and
the sleep check runs at the end. -/
def audioCycle (E : Env) (C : Config) (st : SysState) (texts : List (String × Int))
    (endTime : Int) : SysState × CycleOut :=
  let st0 := { st with
      recent_transcriptions := texts.foldl (fun acc p => dequeAppend 10 acc p.1)
        st.recent_transcriptions
      history_buffer := texts.foldl (fun acc p => dequeAppend C.history_buffer_size acc p.1)
        st.history_buffer }
  let loop := texts.foldl (loopStep E C) (st0, [], false)
  if loop.2.2 then (loop.1, ⟨true, loop.2.1, none⟩)
  else
    let fin := sleepCheck C loop.1 endTime
    (fin.1, ⟨false, loop.2.1, fin.2⟩)

/-- Dispatch of one loop iteration, src/main.py lines 212-396. -/
def runEvent (E : Env) (C : Config) (st : SysState) : Event → SysState × CycleOut
  | Event.external text now => externalCycle E C st text now
  | Event.audio texts endTime => audioCycle E C st texts endTime

/-- A run of the processing loop over a list of events, stopping at a crash
and collecting the finalized sessions. -/
def runTrace (E : Env) (C : Config) (st : SysState) :
    List Event → SysState × List FinalSession × Bool
  | [] => (st, [], false)
  | ev :: evs =>
      let r := runEvent E C st ev
      if r.2.crashed then (r.1, r.2.finalized.toList, true)
      else
        let rest := runTrace E C r.1 evs
        (rest.1, r.2.finalized.toList ++ rest.2.1, rest.2.2)

/-! Concrete fixtures used by witnesses and counterexamples. -/

/-- Default configuration values of src/src/twin/core/config.py 18-56 with
execution enabled. -/
def defaultConfig : Config :=
  { risk_threshold := mkRat 1 2, cooldown_period := 0, amy_threshold := mkRat 11 10,
    na_threshold := mkRat 14 10, hip_threshold := mkRat 11 10, wake_timeout := 24,
    history_buffer_size := 4, history_include_chunks := 6, execute := true }

/-- Environment where every collaborator returns nothing. -/
def envNull : Env :=
  { search := fun _ _ => [], fuzz := fun _ _ => 0, llm := fun _ _ _ => none,
    parse := fun _ => none, selfText := "", pyStr := fun _ => "",
    runShell := fun _ => (0, "", ""), sshTarget := none, display := ":0" }

/-- Environment where the wake collection always matches and fuzzy similarity
is maximal, and nothing else matches. -/
def envWake : Env :=
  { envNull with
      search := fun _ col => if col = "wake" then [("hey computer", mkRat 1 10)] else []
      fuzz := fun _ _ => 100 }

/-- Environment with an amygdala hit below threshold but no na hit. -/
def envAmyOnly : Env :=
  { envNull with
      search := fun _ col => if col = "amygdala" then [("signal", mkRat 1 10)] else []
      llm := fun _ _ _ => some "ok" }

/-- A low-risk unconfirmed response as the LLM would produce it. -/
def okJson : Json :=
  Json.obj [("commands", Json.arr [Json.str "beep"]), ("risk", Json.num (mkRat 1 10)),
            ("confirmed", Json.bool false)]

/-- Environment where both gating collections match and the LLM returns a
response that parses to okJson. -/
def envExec : Env :=
  { envNull with
      search := fun _ col =>
        if col = "amygdala" then [("alert", 1)]
        else if col = "na" then [("beep", 1)] else []
      llm := fun _ _ _ => some "resp"
      parse := fun s => if s = "resp" then some okJson else none }

/-- An open session fixture. -/
def sess0 : Session := ⟨50, [], [], [], [], []⟩

/-- The normalized form of okJson. -/
def r0 : InferenceResponse := process_result "resp" (some okJson)

/-! Claims. -/

/-- C7: the response normalizer, process_result applied after
clean_gpt_response, returns a fully populated record on every input and never
raises: an unparseable raw string yields the single command echo followed by
the raw text with risk one half and confirmed false, and a parsed non-dict
value yields empty commands with the same defaults. -/
theorem c7_normalizer_fallbacks (raw : String) (j : Json) (h : j.isObjB = false) :
    process_result raw none =
      { commands := [Json.str ("echo " ++ raw)], response := Json.str raw,
        risk := Json.num (mkRat 1 2), confirmed := Json.bool false,
        requires_audio_feedback := Json.bool false, confidence := Json.num (mkRat 1 2),
        intent_reasoning := Json.str "" } ∧
    process_result raw (some j) =
      { commands := [], response := Json.str "", risk := Json.num (mkRat 1 2),
        confirmed := Json.bool false, requires_audio_feedback := Json.bool false,
        confidence := Json.num (mkRat 1 2), intent_reasoning := Json.str "" } := by
  refine ⟨rfl, ?_⟩
  cases j with
  | obj kvs => simp [Json.isObjB] at h
  | null => rfl
  | bool b => rfl
  | num q => rfl
  | str s => rfl
  | arr xs => rfl

/-- Witness for c7_normalizer_fallbacks at the malformed output of scenario 5
of the spec. -/
theorem c7_normalizer_fallbacks_witness :
    (Json.str "x").isObjB = false ∧
    (process_result "not json at all" none =
      { commands := [Json.str "echo not json at all"],
        response := Json.str "not json at all",
        risk := Json.num (mkRat 1 2), confirmed := Json.bool false,
        requires_audio_feedback := Json.bool false, confidence := Json.num (mkRat 1 2),
        intent_reasoning := Json.str "" } ∧
    process_result "not json at all" (some (Json.str "x")) =
      { commands := [], response := Json.str "", risk := Json.num (mkRat 1 2),
        confirmed := Json.bool false, requires_audio_feedback := Json.bool false,
        confidence := Json.num (mkRat 1 2), intent_reasoning := Json.str "" }) :=
  ⟨rfl, c7_normalizer_fallbacks "not json at all" (Json.str "x") rfl⟩

/-- C10: the normalizer is round-trip stable: applying process_result to the
JSON object encoding of any of its own outputs, in the normalized shape with
a commands list, returns the same record. -/
theorem c10_normalizer_idempotent (raw raw2 : String) (parsed : Option Json) :
    process_result raw2 (some (respToJson (process_result raw parsed))) =
      process_result raw parsed :=
  respToJson_roundtrip raw2 (process_result raw parsed)

/-- C4: evaluation at the failing input.  The final src/command.py consults
last_executed_commands in is_in_cooldown but never writes it, so starting
from the only registry this code can ever produce, the empty one, the
identical command string executed twice one second apart with a ten-second
cooldown period spawns a subprocess both times, and the second attempt finds
the registry still empty. -/
theorem c4_cooldown_never_recorded :
    (execute_single_command envNull ⟨mkRat 1 2, 10, true, [], none, none⟩ []
        (Json.str "echo hi") 10 "" 0).spawned = ["echo hi"] ∧
    is_in_cooldown [] 1 "echo hi" 10 = false ∧
    (execute_single_command envNull ⟨mkRat 1 2, 10, true, [], none, none⟩ []
        (Json.str "echo hi") 10 "" 1).spawned = ["echo hi"] :=
  ⟨rfl, rfl, rfl⟩

/-- C8 amended: for an Active-state utterance, inference is invoked exactly
when BOTH designated gating collections, amygdala and na, yield a result
below their thresholds; it is skipped as soon as either yields none. -/
theorem c8_inference_gate (E : Env) (C : Config) (session : Option Session)
    (reg : Registry) (text : String) (now : Int) :
    (process_user_text E C session reg text true false now).inferCalled =
      relevanceGate E C text := by
  unfold process_user_text
  cases hg : relevanceGate E C text with
  | false => simp [hg, GenOut.empty]
  | true =>
      simp only [hg, Bool.not_true, Bool.false_and, Bool.and_self, if_false]
      cases ha : inferenceAttempt E C text with
      | none => simp [ha]
      | some r =>
          simp only [ha]
          cases he : C.execute with
          | false => simp [he]
          | true =>
              simp only [he]
              cases hrg : riskGatePy r.risk r.confirmed C.risk_threshold with
              | none => simp [hrg]
              | some g => cases g <;> simp [hrg]

/-- C8 counterexample: with an amygdala result below threshold and no na
result, one of the designated gating collections does yield a result below
threshold, so the claim requires inference to be invoked; the code skips it
because it demands both collections. -/
theorem c8_counterexample :
    relevantBelow (envAmyOnly.search "turn it on" "amygdala")
        defaultConfig.amy_threshold ≠ [] ∧
    (process_user_text envAmyOnly defaultConfig none [] "turn it on" true false 0).inferCalled
      = false := by
  constructor
  · decide
  · rfl

/-- C6 counterexample: two dormant utterances whose first conjunctively
matching windows differ, hey computer versus hey twin, produce identical
process_user_text responses; the response carries only the boolean wake
signal, never the matching window text, so no wake phrase is returned. -/
theorem c6_counterexample :
    ((windows (pyWords "hey computer")).filter (wakeHit envWake)).head? =
        some "hey computer" ∧
    ((windows (pyWords "hey twin now")).filter (wakeHit envWake)).head? =
        some "hey twin" ∧
    process_user_text envWake defaultConfig none [] "hey computer" false false 0 =
      process_user_text envWake defaultConfig none [] "hey twin now" false false 0 :=
  ⟨rfl, rfl, rfl⟩

/-- C2 counterexample: while Active, an utterance that produces no inference
response still resets the wake timer: the else branch of src/main.py lines
379-381 sets wake_start_time to the current time on every awake utterance. -/
theorem c2_counterexample :
    (utteranceStep envNull defaultConfig
        ⟨true, some 100, false, [], [], some sess0, []⟩ "hello there" 110).2.infResp = none ∧
    (utteranceStep envNull defaultConfig
        ⟨true, some 100, false, [], [], some sess0, []⟩ "hello there" 110).1.wake_start_time
      = some 110 ∧
    (utteranceStep envNull defaultConfig
        ⟨true, some 100, false, [], [], some sess0, []⟩ "hello there" 110).1.wake_start_time
      ≠ some 100 := by
  refine ⟨rfl, rfl, by decide⟩

/-- C2 amended: while the system is Active, EVERY processed utterance resets
the wake timer to the processing time, whether or not an inference response
was produced and whether or not any command executed, provided the iteration
does not crash at the risk gate. -/
theorem c2_timer_reset (E : Env) (C : Config) (st : SysState) (text : String) (now : Int)
    (hawake : st.is_awake = true)
    (hok : (utteranceStep E C st text now).2.crashed = false) :
    (utteranceStep E C st text now).1.wake_start_time = some now := by
  unfold utteranceStep at hok ⊢
  cases hs : st.session_data.isSome <;>
    simp only [hawake, hs, Bool.not_true, Bool.and_false, Bool.false_eq_true, if_false,
      Bool.true_and, Bool.and_true, Bool.and_self, if_true] at hok ⊢
  · split at hok
    · simp at hok
    · rename_i hnr
      rw [if_neg hnr]
      split
      · split <;> rfl
      · rfl
  · split at hok
    · simp at hok
    · rename_i hnr
      rw [if_neg hnr]
      split
      · split <;> rfl
      · rfl

/-- Witness for c2_timer_reset at a concrete Active state. -/
theorem c2_timer_reset_witness :
    (⟨true, some 100, false, [], [], some sess0, []⟩ : SysState).is_awake = true ∧
    (utteranceStep envNull defaultConfig ⟨true, some 100, false, [], [], some sess0, []⟩
        "hello there" 110).2.crashed = false ∧
    (utteranceStep envNull defaultConfig ⟨true, some 100, false, [], [], some sess0, []⟩
        "hello there" 110).1.wake_start_time = some 110 :=
  ⟨rfl, rfl, c2_timer_reset envNull defaultConfig _ "hello there" 110 rfl rfl⟩

/-- The state coherence that holds at every reachable point of the loop: the
system is Active exactly when a session record exists, and while Active the
wake timer is set.  Nothing clears the timer on the return to Dormant. -/
def StateCoherent (st : SysState) : Prop :=
  (st.is_awake = true ↔ st.session_data.isSome = true) ∧
  (st.is_awake = true → st.wake_start_time.isSome = true)

theorem applyGenEffects_is_awake (st : SysState) (g : GenOut) :
    (applyGenEffects st g).is_awake = st.is_awake := by
  unfold applyGenEffects; cases h : st.session_data <;> simp [h]

theorem applyGenEffects_wst (st : SysState) (g : GenOut) :
    (applyGenEffects st g).wake_start_time = st.wake_start_time := by
  unfold applyGenEffects; cases h : st.session_data <;> simp [h]

theorem applyGenEffects_session_isSome (st : SysState) (g : GenOut) :
    (applyGenEffects st g).session_data.isSome = st.session_data.isSome := by
  unfold applyGenEffects; cases h : st.session_data <;> simp [h]

theorem applyGenEffects_coherent (st : SysState) (g : GenOut) (h : StateCoherent st) :
    StateCoherent (applyGenEffects st g) := by
  unfold StateCoherent
  rw [applyGenEffects_is_awake, applyGenEffects_wst, applyGenEffects_session_isSome]
  exact h

theorem utteranceStep_coherent (E : Env) (C : Config) (st : SysState) (text : String)
    (now : Int) (h : StateCoherent st) :
    StateCoherent (utteranceStep E C st text now).1 := by
  obtain ⟨h1, h2⟩ := h
  unfold utteranceStep
  cases hA : st.is_awake with
  | false =>
      have hnone : st.session_data.isSome = false := by
        cases hv : st.session_data.isSome
        · rfl
        · exact absurd (h1.mpr hv) (by simp [hA])
      have hst1 : StateCoherent
          { is_awake := false, wake_start_time := st.wake_start_time,
            did_inference := st.did_inference,
            recent_transcriptions := dequeAppend 10 st.recent_transcriptions text,
            history_buffer := st.history_buffer, session_data := st.session_data,
            registry := st.registry } :=
        ⟨by simp [hnone], by simp⟩
      simp only [hA, Bool.false_and, Bool.not_false, Bool.and_true, if_false,
        Bool.false_eq_true, if_true]
      split
      · exact applyGenEffects_coherent _ _ hst1
      · split
        · exact ⟨by simp, by simp⟩
        · simp only [hA, Bool.false_eq_true, if_false]
          exact applyGenEffects_coherent _ _ hst1
  | true =>
      have hsome : st.session_data.isSome = true := h1.mp hA
      obtain ⟨s, hsd⟩ := Option.isSome_iff_exists.mp hsome
      have hwst := h2 hA
      simp only [hA, hsd, Option.isSome_some, Bool.true_and, Bool.not_true, Bool.and_false,
        if_true, Bool.false_eq_true, if_false, Option.map_some]
      have hst1 : StateCoherent
          { is_awake := true, wake_start_time := st.wake_start_time,
            did_inference := st.did_inference,
            recent_transcriptions := st.recent_transcriptions,
            history_buffer := dequeAppend C.history_buffer_size st.history_buffer text,
            session_data := some
              { start_time := s.start_time,
                before_transcriptions := s.before_transcriptions,
                after_transcriptions := s.after_transcriptions ++ [text],
                inferences := s.inferences, commands_executed := s.commands_executed,
                vectorstore_results := s.vectorstore_results },
            registry := st.registry } :=
        ⟨by simp, fun _ => hwst⟩
      split
      · exact applyGenEffects_coherent _ _ hst1
      · split
        · split
          · refine ⟨⟨fun _ => ?_, fun _ => rfl⟩, fun _ => by simp⟩
            simp [applyGenEffects_session_isSome]
          · refine ⟨⟨fun _ => ?_, fun _ => rfl⟩, fun _ => by simp⟩
            simp [applyGenEffects_session_isSome]
        · refine ⟨⟨fun _ => ?_, fun _ => rfl⟩, fun _ => by simp⟩
          simp [applyGenEffects_session_isSome]

theorem sleepCheck_coherent (C : Config) (st : SysState) (now : Int)
    (h : StateCoherent st) : StateCoherent (sleepCheck C st now).1 := by
  unfold sleepCheck
  split
  · split
    · exact ⟨by simp, by simp⟩
    · rename_i hsd
      exact ⟨by simp [hsd], by simp⟩
  · exact h

theorem externalCycle_coherent (E : Env) (C : Config) (st : SysState) (text : String)
    (now : Int) (h : StateCoherent st) :
    StateCoherent (externalCycle E C st text now).1 := by
  have hac := applyGenEffects_coherent st
    (process_user_text E C st.session_data st.registry text true true now) h
  unfold externalCycle
  dsimp only
  split
  · exact hac
  · split
    · split
      · split
        · exact ⟨by simp, by simp⟩
        · exact ⟨hac.1, fun _ => rfl⟩
      · split
        · exact ⟨by simp, by simp⟩
        · exact ⟨hac.1, hac.2⟩
    · split
      · exact ⟨by simp, by simp⟩
      · exact hac

theorem loopFold_coherent (E : Env) (C : Config) (texts : List (String × Int)) :
    ∀ (s : SysState) (tr : List StepTrace) (b : Bool), StateCoherent s →
      StateCoherent ((texts.foldl (loopStep E C) (s, tr, b)).1) := by
  induction texts with
  | nil => intro s tr b h; exact h
  | cons p ps ih =>
      intro s tr b h
      rw [List.foldl_cons]
      have heta : loopStep E C (s, tr, b) p =
          ((loopStep E C (s, tr, b) p).1, (loopStep E C (s, tr, b) p).2.1,
           (loopStep E C (s, tr, b) p).2.2) := rfl
      rw [heta]
      apply ih
      unfold loopStep
      split
      · exact h
      · exact utteranceStep_coherent E C s p.1 p.2 h

theorem audioCycle_coherent (E : Env) (C : Config) (st : SysState)
    (texts : List (String × Int)) (endTime : Int) (h : StateCoherent st) :
    StateCoherent (audioCycle E C st texts endTime).1 := by
  unfold audioCycle
  dsimp only
  have h0 : StateCoherent
      { st with
          recent_transcriptions := texts.foldl (fun acc p => dequeAppend 10 acc p.1)
            st.recent_transcriptions
          history_buffer := texts.foldl
            (fun acc p => dequeAppend C.history_buffer_size acc p.1) st.history_buffer } :=
    ⟨h.1, h.2⟩
  have hl := loopFold_coherent E C texts _ [] false h0
  split
  · exact hl
  · exact sleepCheck_coherent C _ endTime hl

theorem runEvent_coherent (E : Env) (C : Config) (st : SysState) (ev : Event)
    (h : StateCoherent st) : StateCoherent (runEvent E C st ev).1 := by
  cases ev with
  | external text now => exact externalCycle_coherent E C st text now h
  | audio texts endTime => exact audioCycle_coherent E C st texts endTime h

theorem runTrace_coherent (E : Env) (C : Config) (evs : List Event) :
    ∀ st : SysState, StateCoherent st → StateCoherent (runTrace E C st evs).1 := by
  induction evs with
  | nil => intro st h; exact h
  | cons ev evs ih =>
      intro st h
      unfold runTrace
      dsimp only
      split
      · exact runEvent_coherent E C st ev h
      · exact ih _ (runEvent_coherent E C st ev h)

/-- Events driving one wake utterance and then a timed-out silent cycle. -/
def c5Events : List Event :=
  [Event.audio [("hey computer", 10)] 11, Event.audio [] 40]

/-- C5 amended: at every reachable point of the loop, starting at the initial
state and running any sequence of events under any collaborators, the system
is Active exactly when a session record exists, and while Active the wake
timer is set.  The claimed third equivalence does not hold: the timer is not
cleared on the transition back to Dormant, as c5_counterexample shows. -/
theorem c5_awake_iff_session (E : Env) (C : Config) (evs : List Event) :
    StateCoherent (runTrace E C initState evs).1 :=
  runTrace_coherent E C evs initState ⟨by simp [initState], by simp [initState]⟩

/-- C5 counterexample: after a wake at time 10 and a timeout at time 40 the
loop is back in Dormant with no session, yet wake_start_time still holds the
stale timestamp; the transition to Dormant does not clear the deadline, so
the claimed three-way equivalence fails at a reachable state. -/
theorem c5_counterexample :
    (runTrace envWake defaultConfig initState c5Events).1.is_awake = false ∧
    (runTrace envWake defaultConfig initState c5Events).1.session_data.isSome = false ∧
    (runTrace envWake defaultConfig initState c5Events).1.wake_start_time = some 10 ∧
    (runTrace envWake defaultConfig initState c5Events).1.wake_start_time ≠ none := by
  refine ⟨rfl, rfl, rfl, by decide⟩

/-- Clock soundness of the stored session timestamps relative to a time t. -/
def SessClockLE (o : Option Session) (t : Int) : Prop :=
  ∀ s, o = some s → s.start_time ≤ t

/-- Clock soundness of a state: the wake timer and the session start time are
at or before t. -/
def ClockLE (st : SysState) (t : Int) : Prop :=
  (∀ w, st.wake_start_time = some w → w ≤ t) ∧ SessClockLE st.session_data t

theorem sessClockLE_map (o : Option Session) (t : Int) (f : Session → Session)
    (hf : ∀ s, (f s).start_time = s.start_time) (h : SessClockLE o t) :
    SessClockLE (o.map f) t := by
  intro s2 hs2
  cases o with
  | none => simp at hs2
  | some s =>
      have hs3 : some (f s) = some s2 := hs2
      cases hs3
      rw [hf]
      exact h s rfl

theorem applyGenEffects_session_eq (st : SysState) (g : GenOut) :
    (applyGenEffects st g).session_data = st.session_data.map (fun s =>
      { s with
          vectorstore_results := s.vectorstore_results ++ g.vecRecord.toList
          inferences := s.inferences ++ g.infRecord.toList
          commands_executed := s.commands_executed
            ++ g.genBatch.records.map CmdEntry.single }) := by
  unfold applyGenEffects; cases h : st.session_data <;> simp [h]

theorem applyGenEffects_clock (st : SysState) (g : GenOut) (t : Int)
    (h : ClockLE st t) : ClockLE (applyGenEffects st g) t := by
  refine ⟨?_, ?_⟩
  · rw [applyGenEffects_wst]; exact h.1
  · rw [applyGenEffects_session_eq]
    exact sessClockLE_map _ _ _ (fun s => rfl) h.2

theorem clockLE_mk (a : Bool) (wst : Option Int) (d : Bool) (rc hb : List String)
    (sd : Option Session) (reg : Registry) (t : Int)
    (hw : ∀ w, wst = some w → w ≤ t) (hs : SessClockLE sd t) :
    ClockLE ⟨a, wst, d, rc, hb, sd, reg⟩ t := ⟨hw, hs⟩

theorem utteranceStep_clock (E : Env) (C : Config) (st : SysState) (text : String)
    (now t : Int) (hnow : now ≤ t) (h : ClockLE st t) :
    ClockLE (utteranceStep E C st text now).1 t := by
  obtain ⟨h1, h2⟩ := h
  have hwake : ClockLE
      { is_awake := true, wake_start_time := some now, did_inference := false,
        recent_transcriptions := [], history_buffer := ([] : List String),
        session_data := some (newSession now []), registry := ([] : Registry) } t := by
    constructor
    · intro w hw
      have hw2 : some now = some w := hw
      cases hw2
      exact hnow
    · intro s2 hs2
      have hs3 : some (newSession now []) = some s2 := hs2
      cases hs3
      exact hnow
  clear hwake
  unfold utteranceStep
  cases hA : st.is_awake with
  | false =>
      have hst1 : ClockLE
          { is_awake := false, wake_start_time := st.wake_start_time,
            did_inference := st.did_inference,
            recent_transcriptions := dequeAppend 10 st.recent_transcriptions text,
            history_buffer := st.history_buffer, session_data := st.session_data,
            registry := st.registry } t := ⟨h1, h2⟩
      simp only [hA, Bool.false_and, Bool.not_false, Bool.and_true, if_false,
        Bool.false_eq_true, if_true]
      split
      · exact applyGenEffects_clock _ _ t hst1
      · split
        · refine ⟨?_, ?_⟩
          · intro w hw
            have hw2 : some now = some w := hw
            cases hw2
            exact hnow
          · intro s2 hs2
            have hs3 : some (newSession now _) = some s2 := hs2
            cases hs3
            exact hnow
        · simp only [hA, Bool.false_eq_true, if_false]
          exact applyGenEffects_clock _ _ t hst1
  | true =>
      cases hsd : st.session_data with
      | none =>
          have hst1 : ClockLE
              { is_awake := true, wake_start_time := st.wake_start_time,
                did_inference := st.did_inference,
                recent_transcriptions := dequeAppend 10 st.recent_transcriptions text,
                history_buffer := st.history_buffer, session_data := none,
                registry := st.registry } t :=
            ⟨h1, fun s2 hs2 => by simp at hs2⟩
          have hclock2 := applyGenEffects_clock _
            (process_user_text E C none st.registry text true false now) t hst1
          simp only [hA, hsd, Option.isSome_none, Bool.true_and, Bool.and_false, if_false,
            Bool.not_true, Bool.false_eq_true, if_true]
          split
          · exact hclock2
          · split
            · split
              · refine clockLE_mk _ _ _ _ _ _ _ _ ?_ ?_
                · intro w hw
                  cases hw
                  exact hnow
                · exact sessClockLE_map _ _ _ (fun s => rfl)
                    (sessClockLE_map _ _ _ (fun s => rfl) hclock2.2)
              · refine clockLE_mk _ _ _ _ _ _ _ _ ?_ ?_
                · intro w hw
                  cases hw
                  exact hnow
                · exact sessClockLE_map _ _ _ (fun s => rfl) hclock2.2
            · refine clockLE_mk _ _ _ _ _ _ _ _ ?_ hclock2.2
              intro w hw
              cases hw
              exact hnow
      | some s =>
          have hst1 : ClockLE
              { is_awake := true, wake_start_time := st.wake_start_time,
                did_inference := st.did_inference,
                recent_transcriptions := st.recent_transcriptions,
                history_buffer := dequeAppend C.history_buffer_size st.history_buffer text,
                session_data := some
                  { start_time := s.start_time,
                    before_transcriptions := s.before_transcriptions,
                    after_transcriptions := s.after_transcriptions ++ [text],
                    inferences := s.inferences, commands_executed := s.commands_executed,
                    vectorstore_results := s.vectorstore_results },
                registry := st.registry } t := by
            refine ⟨h1, ?_⟩
            intro s2 hs2
            have hs3 : some _ = some s2 := hs2
            cases hs3
            exact h2 s hsd
          have hclock2 := applyGenEffects_clock _
            (process_user_text E C (some
              { start_time := s.start_time,
                before_transcriptions := s.before_transcriptions,
                after_transcriptions := s.after_transcriptions ++ [text],
                inferences := s.inferences, commands_executed := s.commands_executed,
                vectorstore_results := s.vectorstore_results })
              st.registry text true false now) t hst1
          simp only [hA, hsd, Option.isSome_some, Bool.true_and, Bool.and_false, if_false,
            Bool.not_true, Bool.false_eq_true, if_true, Option.map_some]
          split
          · exact hclock2
          · split
            · split
              · refine clockLE_mk _ _ _ _ _ _ _ _ ?_ ?_
                · intro w hw
                  cases hw
                  exact hnow
                · exact sessClockLE_map _ _ _ (fun s => rfl)
                    (sessClockLE_map _ _ _ (fun s => rfl) hclock2.2)
              · refine clockLE_mk _ _ _ _ _ _ _ _ ?_ ?_
                · intro w hw
                  cases hw
                  exact hnow
                · exact sessClockLE_map _ _ _ (fun s => rfl) hclock2.2
            · refine clockLE_mk _ _ _ _ _ _ _ _ ?_ hclock2.2
              intro w hw
              cases hw
              exact hnow


theorem loopFold_clock (E : Env) (C : Config) (t : Int) :
    ∀ texts : List (String × Int), (∀ p ∈ texts, p.2 ≤ t) →
      ∀ (s : SysState) (tr : List StepTrace) (b : Bool), ClockLE s t →
        ClockLE ((texts.foldl (loopStep E C) (s, tr, b)).1) t := by
  intro texts
  induction texts with
  | nil => intro _ s tr b h; exact h
  | cons p ps ih =>
      intro htimes s tr b h
      rw [List.foldl_cons]
      have heta : loopStep E C (s, tr, b) p =
          ((loopStep E C (s, tr, b) p).1, (loopStep E C (s, tr, b) p).2.1,
           (loopStep E C (s, tr, b) p).2.2) := rfl
      rw [heta]
      apply ih (fun q hq => htimes q (List.mem_cons_of_mem p hq))
      unfold loopStep
      split
      · exact h
      · exact utteranceStep_clock E C s p.1 p.2 t (htimes p (List.mem_cons_self p ps)) h

theorem sleepCheck_history (C : Config) (st : SysState) (now : Int) :
    (sleepCheck C st now).1.history_buffer = st.history_buffer := by
  unfold sleepCheck
  split
  · split <;> rfl
  · rfl

/-- C9 amended: under a sound clock (every stored timestamp at or before the
cycle end time, with utterance times at or before it as well), a session
finalized by the sleep check satisfies end_time at or after start_time and a
non-negative duration; its complete_transcription, however, is the space-join
of the global bounded history buffer as it stands at finalization, not of the
utterances recorded during the Active window (see c9_counterexample). -/
theorem c9_session_finalization (E : Env) (C : Config) (st : SysState)
    (texts : List (String × Int)) (endTime : Int) (fin : FinalSession)
    (hclock : ClockLE st endTime)
    (htimes : ∀ p ∈ texts, p.2 ≤ endTime)
    (hfin : (audioCycle E C st texts endTime).2.finalized = some fin) :
    fin.start_time ≤ fin.end_time ∧ 0 ≤ fin.duration ∧
    fin.complete_transcription =
      String.intercalate " " (audioCycle E C st texts endTime).1.history_buffer := by
  unfold audioCycle at hfin ⊢
  dsimp only at hfin ⊢
  generalize hG : texts.foldl (loopStep E C)
      ({ st with
          recent_transcriptions := texts.foldl (fun acc p => dequeAppend 10 acc p.1)
            st.recent_transcriptions
          history_buffer := texts.foldl
            (fun acc p => dequeAppend C.history_buffer_size acc p.1)
            st.history_buffer }, [], false) = L at hfin ⊢
  have hl : ClockLE L.1 endTime := by
    rw [← hG]
    exact loopFold_clock E C endTime texts htimes _ [] false ⟨hclock.1, hclock.2⟩
  split at hfin
  · simp at hfin
  · rename_i hnc
    rw [if_neg hnc]
    dsimp only at hfin ⊢
    rw [sleepCheck_history]
    unfold sleepCheck at hfin
    split at hfin
    · rename_i hcond
      split at hfin
      · rename_i s hsd
        have hfin2 : some _ = some fin := hfin
        cases hfin2
        refine ⟨hl.2 s hsd, ?_, rfl⟩
        show 0 ≤ endTime - L.1.wake_start_time.getD 0
        have hl1 := hl.1
        generalize hw : L.1.wake_start_time = wopt at hcond hl1 ⊢
        cases wopt with
        | none => simp [wstTruthy] at hcond
        | some w =>
            have hwle := hl1 w rfl
            dsimp only [Option.getD]
            omega
      · simp at hfin
    · simp at hfin


/-- Events driving a wake at 10, one Active utterance at 12, and a timeout
at 40. -/
def c9Events : List Event :=
  [Event.audio [("hey computer", 10)] 11,
   Event.audio [("turn on lights", 12)] 13,
   Event.audio [] 40]

/-- C9 counterexample: the finalized session of the c9Events run has
after_transcriptions (the utterances recorded during the Active window) equal
to one utterance, but complete_transcription contains the pre-wake wake
phrase and that utterance twice (transcribe_audio appends every transcription
to the history buffer and the loop appends it again while awake), so the
claimed equality with the space-joined Active-window utterances fails. -/
theorem c9_counterexample :
    ((runTrace envWake defaultConfig initState c9Events).2.1.map
        (fun f => f.complete_transcription)) =
      ["hey computer turn on lights turn on lights"] ∧
    ((runTrace envWake defaultConfig initState c9Events).2.1.map
        (fun f => f.after_transcriptions)) = [["turn on lights"]] ∧
    "hey computer turn on lights turn on lights" ≠
      String.intercalate " " ["turn on lights"] := by
  refine ⟨rfl, rfl, by decide⟩

/-- An Active state ready to time out, for the c9 witness. -/
def stW9 : SysState := ⟨true, some 10, false, [], ["hi"], some ⟨5, [], [], [], [], []⟩, []⟩

/-- The session stW9 finalizes into at time 40. -/
def finW : FinalSession := ⟨5, 40, 30, "hi", [], [], [], []⟩

/-- Witness for c9_session_finalization at a concrete timing-out state. -/
theorem c9_session_finalization_witness :
    ClockLE stW9 40 ∧ (∀ p ∈ ([] : List (String × Int)), p.2 ≤ 40) ∧
    (audioCycle envNull defaultConfig stW9 [] 40).2.finalized = some finW ∧
    (finW.start_time ≤ finW.end_time ∧ 0 ≤ finW.duration ∧
     finW.complete_transcription =
       String.intercalate " " (audioCycle envNull defaultConfig stW9 [] 40).1.history_buffer) :=
  by
  refine ⟨?_, ?_, ?_, ?_⟩
  · exact ⟨fun w hw => by cases hw; decide, fun s hs => by cases hs; decide⟩
  · exact fun p hp => nomatch hp
  · exact rfl
  · exact c9_session_finalization envNull defaultConfig stW9 [] 40 finW
      ⟨fun w hw => by cases hw; decide, fun s hs => by cases hs; decide⟩
      (fun p hp => nomatch hp) rfl


/-- Characterization of one wake-loop iteration: the window wakes exactly
when the wake collection has a result below the distance threshold and some
configured phrase reaches the fuzzy similarity threshold. -/
theorem wakeHit_iff (E : Env) (w : String) :
    wakeHit E w = true ↔
      (∃ p ∈ E.search w "wake", p.2 < WAKE_DISTANCE_THRESHOLD) ∧
      (∃ phrase ∈ WAKE_PHRASES, E.fuzz w phrase ≥ FUZZY_SIMILARITY_THRESHOLD) := by
  unfold wakeHit
  simp [List.isEmpty_eq_false_iff_exists_mem, List.mem_filter]

/-- C6 amended: for a dormant unforced utterance, wake fires if and only if
some sliding window has both a semantic wake result below the distance
threshold and a configured phrase with fuzzy similarity at or above the
similarity threshold; neither signal alone suffices.  The matching window
text, however, is not part of the returned response (see
c6_counterexample). -/
theorem c6_wake_conjunction (E : Env) (C : Config) (session : Option Session)
    (reg : Registry) (text : String) (now : Int) :
    (process_user_text E C session reg text false false now).woke_up = true ↔
      ∃ w ∈ windows (pyWords text),
        (∃ p ∈ E.search w "wake", p.2 < WAKE_DISTANCE_THRESHOLD) ∧
        (∃ phrase ∈ WAKE_PHRASES, E.fuzz w phrase ≥ FUZZY_SIMILARITY_THRESHOLD) := by
  unfold process_user_text
  simp only [Bool.not_false, Bool.and_self, if_true]
  constructor
  · intro h
    cases ha : (windows (pyWords text)).any (wakeHit E) with
    | false => rw [ha] at h; simp [GenOut.empty] at h
    | true =>
        obtain ⟨w, hw, hhit⟩ := List.any_eq_true.mp ha
        exact ⟨w, hw, (wakeHit_iff E w).mp hhit⟩
  · rintro ⟨w, hw, hcond⟩
    have ha : (windows (pyWords text)).any (wakeHit E) = true :=
      List.any_eq_true.mpr ⟨w, hw, (wakeHit_iff E w).mpr hcond⟩
    rw [ha]
    rfl


/-- Through the old calling convention, a non-empty batch under a
non-negative threshold always reaches the per-command loop. -/
theorem execute_commands_old_run (E : Env) (cc : CmdCtx) (reg : Registry)
    (commands : List Json) (cooldown : Int) (now : Int)
    (hne : commands ≠ []) (hth : 0 ≤ cc.risk_threshold) :
    execute_commands_old E cc reg commands (some cooldown) now =
      execBatch E cc reg commands cooldown "" now := by
  unfold execute_commands_old
  rw [if_neg (by simpa [List.isEmpty_iff] using hne)]
  rw [if_neg (by simp [not_lt.mpr hth])]
  rfl

/-- Through the new calling convention with boolean confirmation and numeric
risk, the batch runs exactly when risk is at most the threshold or the
confirmation is set, and is skipped atomically otherwise. -/
theorem execute_commands_new_gate (E : Env) (cc : CmdCtx) (reg : Registry)
    (commands : List Json) (q : ℚ) (b : Bool) (self : String) (now : Int)
    (hne : commands ≠ []) :
    execute_commands_new E cc reg commands (Json.bool b) (Json.num q) self now =
      if decide (q ≤ cc.risk_threshold) || b then
        execBatch E cc reg commands cc.cooldown_period self now
      else ⟨[], []⟩ := by
  unfold execute_commands_new
  rw [if_neg (by simpa [List.isEmpty_iff] using hne)]
  show (if (decide (q > cc.risk_threshold) && !jsonTruthy (Json.bool b)) = true then
      (⟨[], []⟩ : BatchOut)
    else execBatch E cc reg commands cc.cooldown_period self now) = _
  by_cases hq : q ≤ cc.risk_threshold
  · rw [if_neg (by simp [not_lt.mpr hq]), if_pos (by simp [hq])]
  · cases b with
    | true => rw [if_neg (by simp [jsonTruthy]), if_pos (by simp)]
    | false =>
        rw [if_pos (by simp [jsonTruthy, lt_of_not_le hq]), if_neg (by simp [hq])]

/-- Outcome of process_user_text for an Active utterance whose relevance gate
passes and whose inference yields a response with numeric risk and boolean
confirmed: the response is recorded, and with execution enabled the batch is
handed to execute_commands exactly when the risk gate passes. -/
theorem process_user_text_gated (E : Env) (C : Config) (session : Option Session)
    (reg : Registry) (text : String) (now : Int) (r : InferenceResponse) (q : ℚ) (b : Bool)
    (hexec : C.execute = true) (hgate : relevanceGate E C text = true)
    (hinf : inferenceAttempt E C text = some r)
    (hrisk : r.risk = Json.num q) (hconf : r.confirmed = Json.bool b) :
    process_user_text E C session reg text true false now =
      { woke_up := false
      , inference_response := some r
      , raised := false
      , inferCalled := true
      , batchesHanded := if decide (q ≤ C.risk_threshold) || b then [r.commands] else []
      , genBatch := if decide (q ≤ C.risk_threshold) || b then
            execute_commands_old E (ccOf C session) reg r.commands (some C.cooldown_period) now
          else ⟨[], []⟩
      , infRecord := if session.isSome then some (InfEntry.gen now text r) else none
      , vecRecord := if session.isSome then
            some ⟨now, text, E.search text "amygdala", E.search text "na",
                  E.search text "hippocampus", E.search text "tools"⟩ else none
      , toolCalls := (toolInfoOf E (relevantBelow (E.search text "tools") C.na_threshold)).2 } := by
  unfold process_user_text
  simp only [Bool.not_true, Bool.false_and, Bool.false_eq_true, if_false, hgate, hinf, hexec,
    Bool.not_true, if_true, hrisk, hconf]
  unfold riskGatePy jsonAsPyNumber jsonTruthy
  cases hqb : decide (q ≤ C.risk_threshold) || b <;> simp [hqb]


/-- C1: for an Active utterance with execution enabled whose inference
produced a response with numeric risk and boolean confirmed flag and a
non-empty command list, the command batch is executed if and only if the risk
is at most the threshold or confirmed is true; the gating is atomic: when
neither holds, neither execution site spawns a subprocess or records a
command, and when the gate passes both sites run the identical per-command
batch. -/
theorem c1_risk_gate (E : Env) (C : Config) (st : SysState) (sd : Session) (text : String)
    (now : Int) (r : InferenceResponse) (q : ℚ) (b : Bool)
    (hawake : st.is_awake = true) (hsess : st.session_data = some sd)
    (hexec : C.execute = true) (hth : 0 ≤ C.risk_threshold)
    (hgate : relevanceGate E C text = true)
    (hinf : inferenceAttempt E C text = some r)
    (hrisk : r.risk = Json.num q) (hconf : r.confirmed = Json.bool b)
    (hcmds : r.commands ≠ []) :
    ((decide (q ≤ C.risk_threshold) || b) = false →
      (utteranceStep E C st text now).2.genBatch = ⟨[], []⟩ ∧
      (utteranceStep E C st text now).2.bufBatch = ⟨[], []⟩) ∧
    ((decide (q ≤ C.risk_threshold) || b) = true →
      (utteranceStep E C st text now).2.genBatch =
        execBatch E (ccOf C (some { sd with
            after_transcriptions := sd.after_transcriptions ++ [text] })) st.registry
          r.commands C.cooldown_period "" now ∧
      (utteranceStep E C st text now).2.bufBatch =
        execBatch E (ccOf C (some { sd with
            after_transcriptions := sd.after_transcriptions ++ [text] })) st.registry
          r.commands C.cooldown_period "" now) := by
  unfold utteranceStep
  simp only [hawake, hsess, Option.isSome_some, Bool.true_and, Bool.and_self, if_true,
    Option.map_some, Bool.not_true, Bool.and_false, Bool.false_eq_true, if_false]
  rw [process_user_text_gated E C _ st.registry text now r q b hexec hgate hinf hrisk hconf]
  dsimp only
  simp only [Bool.false_eq_true, Bool.false_and, Bool.and_false, if_false, Bool.not_true]
  rw [show (!r.commands.isEmpty && C.execute) = true by
    simp [hexec, List.isEmpty_iff, hcmds]]
  rw [hconf, hrisk]
  rw [execute_commands_new_gate E _ _ r.commands q b "" now hcmds]
  rw [execute_commands_old_run E _ st.registry r.commands C.cooldown_period now hcmds hth]
  simp only [ccOf]
  cases hqb : decide (q ≤ C.risk_threshold) || b
  · exact ⟨fun _ => ⟨rfl, rfl⟩, fun hcontra => Bool.noConfusion hcontra⟩
  · exact ⟨fun hcontra => Bool.noConfusion hcontra, fun _ => ⟨rfl, rfl⟩⟩


/-- C3: an Active utterance with execution enabled whose inference response
carries a non-empty command list and passes the risk gate hands that batch to
execute_commands twice: once inside process_user_text through the old calling
convention and once again in process_buffer through the new one. -/
theorem c3_double_execution (E : Env) (C : Config) (st : SysState) (sd : Session)
    (text : String) (now : Int) (r : InferenceResponse) (q : ℚ) (b : Bool)
    (hawake : st.is_awake = true) (hsess : st.session_data = some sd)
    (hexec : C.execute = true)
    (hgate : relevanceGate E C text = true)
    (hinf : inferenceAttempt E C text = some r)
    (hrisk : r.risk = Json.num q) (hconf : r.confirmed = Json.bool b)
    (hcmds : r.commands ≠ [])
    (hpass : (decide (q ≤ C.risk_threshold) || b) = true) :
    (utteranceStep E C st text now).2.execCalls = [r.commands, r.commands] := by
  unfold utteranceStep
  simp only [hawake, hsess, Option.isSome_some, Bool.true_and, Bool.and_self, if_true,
    Option.map_some, Bool.not_true, Bool.and_false, Bool.false_eq_true, if_false]
  rw [process_user_text_gated E C _ st.registry text now r q b hexec hgate hinf hrisk hconf]
  dsimp only
  simp only [Bool.false_eq_true, Bool.false_and, Bool.and_false, if_false, Bool.not_true]
  rw [show (!r.commands.isEmpty && C.execute) = true by
    simp [hexec, List.isEmpty_iff, hcmds]]
  rw [hpass]
  rfl


/-- An Active state with an open session and empty registry. -/
def stW : SysState := ⟨true, some 50, false, [], [], some sess0, []⟩

/-- Witness for c1_risk_gate: scenario 2 of the spec with a risk of one tenth
against a threshold of one half; the batch executes and the single command
spawns. -/
theorem c1_risk_gate_witness :
    stW.is_awake = true ∧
    stW.session_data = some sess0 ∧
    defaultConfig.execute = true ∧
    (0 : ℚ) ≤ defaultConfig.risk_threshold ∧
    relevanceGate envExec defaultConfig "do it" = true ∧
    inferenceAttempt envExec defaultConfig "do it" = some r0 ∧
    r0.risk = Json.num (mkRat 1 10) ∧
    r0.confirmed = Json.bool false ∧
    r0.commands ≠ [] ∧
    ((decide ((mkRat 1 10) ≤ defaultConfig.risk_threshold) || false) = true →
      (utteranceStep envExec defaultConfig stW "do it" 100).2.genBatch =
        execBatch envExec (ccOf defaultConfig (some { sess0 with
            after_transcriptions := sess0.after_transcriptions ++ ["do it"] }))
          stW.registry r0.commands defaultConfig.cooldown_period "" 100 ∧
      (utteranceStep envExec defaultConfig stW "do it" 100).2.bufBatch =
        execBatch envExec (ccOf defaultConfig (some { sess0 with
            after_transcriptions := sess0.after_transcriptions ++ ["do it"] }))
          stW.registry r0.commands defaultConfig.cooldown_period "" 100) ∧
    (execBatch envExec (ccOf defaultConfig (some { sess0 with
        after_transcriptions := sess0.after_transcriptions ++ ["do it"] }))
      stW.registry r0.commands defaultConfig.cooldown_period "" 100).spawned = ["beep"] := by
  refine ⟨rfl, rfl, rfl, by decide, rfl, rfl, rfl, rfl, fun h => List.noConfusion h, ?_, rfl⟩
  exact (c1_risk_gate envExec defaultConfig stW sess0 "do it" 100 r0 (mkRat 1 10) false
    rfl rfl rfl (by decide) rfl rfl rfl rfl (fun h => List.noConfusion h)).2

/-- Witness for c3_double_execution: the same scenario hands the one-command
batch to the executor twice. -/
theorem c3_double_execution_witness :
    stW.is_awake = true ∧
    stW.session_data = some sess0 ∧
    defaultConfig.execute = true ∧
    relevanceGate envExec defaultConfig "do it" = true ∧
    inferenceAttempt envExec defaultConfig "do it" = some r0 ∧
    r0.risk = Json.num (mkRat 1 10) ∧
    r0.confirmed = Json.bool false ∧
    r0.commands ≠ [] ∧
    (decide ((mkRat 1 10) ≤ defaultConfig.risk_threshold) || false) = true ∧
    (utteranceStep envExec defaultConfig stW "do it" 100).2.execCalls =
      [r0.commands, r0.commands] := by
  refine ⟨rfl, rfl, rfl, rfl, rfl, rfl, rfl, fun h => List.noConfusion h, by decide, ?_⟩
  exact c3_double_execution envExec defaultConfig stW sess0 "do it" 100 r0 (mkRat 1 10) false
    rfl rfl rfl rfl rfl rfl rfl (fun h => List.noConfusion h) (by decide)


end Twin
